import Mathlib

/-!
Shallow embedding of the chat client core in `src/Client/src/components/chat.rs`
(a Yew component). The wire format is JSON produced/consumed via serde derives;
we model JSON values as an inductive `Json` and model the serde-derive binding
phase (`WebSocketMessage`, `MsgTypes`, `MessageData`) directly on `Json` values,
and serde_json's text-to-value phase as a small executable parser `Json.parse`
(numbers are modelled as integers; no claim involves numeric fields).
Panics (`unwrap` on `None` / on a decode error) are modelled by `Option.none`
results of the processing functions.
-/

namespace YewChat

/-- JSON values, the structured form of wire frames. -/
inductive Json where
  | null : Json
  | bool (b : Bool) : Json
  | num (n : Int) : Json
  | str (s : String) : Json
  | arr (elems : List Json) : Json
  | obj (fields : List (String × Json)) : Json

/-- Message kinds: `enum MsgTypes` with `serde(rename_all = "lowercase")`.
The enum has exactly these three variants and no catch-all variant. -/
inductive MsgTypes where
  | Users : MsgTypes
  | Register : MsgTypes
  | Message : MsgTypes
deriving DecidableEq

/-- Wire envelope: `struct WebSocketMessage` with `serde(rename_all = "camelCase")`. -/
structure WebSocketMessage where
  message_type : MsgTypes
  data_array : Option (List String)
  data : Option String
deriving DecidableEq

/-- Inner chat payload: `struct MessageData` (derive Deserialize). -/
structure MessageData where
  «from» : String
  message : String
deriving DecidableEq

/-- Roster entry: `struct UserProfile`. -/
structure UserProfile where
  name : String
  avatar : String
deriving DecidableEq

/-- First field with the given key in a JSON object, as serde looks fields up. -/
def lookupField (key : String) : List (String × Json) → Option Json
  | [] => none
  | (k, v) :: rest => if k = key then some v else lookupField key rest

/-- Serialized tag of a `MsgTypes` variant (serde lowercase renaming). -/
def encodeMsgType : MsgTypes → String
  | .Users => "users"
  | .Register => "register"
  | .Message => "message"

/-- Tag recognition for `MsgTypes`: only the three declared variants are
recognized; any other tag is a deserialization error (no `serde(other)`). -/
def decodeMsgType (t : String) : Option MsgTypes :=
  if t = "users" then some .Users
  else if t = "register" then some .Register
  else if t = "message" then some .Message
  else none

/-- Serialization of a `WebSocketMessage` to a JSON value: serde emits every
field, with `None` as `null` (no `skip_serializing_if`). -/
def encodeEnvelope (e : WebSocketMessage) : Json :=
  .obj [("messageType", .str (encodeMsgType e.message_type)),
        ("dataArray", match e.data_array with
          | none => .null
          | some xs => .arr (xs.map Json.str)),
        ("data", match e.data with
          | none => .null
          | some s => .str s)]

/-- Element-wise decoding of a JSON array of strings (for `Vec<String>`). -/
def strListOfJson : List Json → Except String (List String)
  | [] => .ok []
  | .str s :: rest => (strListOfJson rest).map (s :: ·)
  | _ :: _ => .error "invalid type: expected a string"

/-- Decoding of `Option<Vec<String>>`: a missing field or `null` is `None`. -/
def decodeOptStrList : Option Json → Except String (Option (List String))
  | none => .ok none
  | some .null => .ok none
  | some (.arr xs) => (strListOfJson xs).map some
  | some _ => .error "invalid type: expected an array of strings"

/-- Decoding of `Option<String>`: a missing field or `null` is `None`. -/
def decodeOptStr : Option Json → Except String (Option String)
  | none => .ok none
  | some .null => .ok none
  | some (.str s) => .ok (some s)
  | some _ => .error "invalid type: expected a string"

/-- Deserialization of a `WebSocketMessage` from a JSON value, mirroring the
serde derive: `messageType` is required and must be a known tag; the two
`Option` fields tolerate absence and `null`; unknown extra fields are ignored. -/
def decodeEnvelope (j : Json) : Except String WebSocketMessage :=
  match j with
  | .obj fields =>
    match lookupField "messageType" fields with
    | some (.str tag) =>
      match decodeMsgType tag with
      | some mt =>
        match decodeOptStrList (lookupField "dataArray" fields) with
        | .ok da =>
          match decodeOptStr (lookupField "data" fields) with
          | .ok d => .ok ⟨mt, da, d⟩
          | .error msg => .error msg
        | .error msg => .error msg
      | none => .error "unknown variant for field messageType"
    | some _ => .error "invalid type for field messageType"
    | none => .error "missing field messageType"
  | _ => .error "invalid type: expected an object"

/-- Deserialization of the inner `MessageData` payload from a JSON value:
both `from` and `message` are required strings. -/
def decodeMessageData (j : Json) : Except String MessageData :=
  match j with
  | .obj fields =>
    match lookupField "from" fields with
    | some (.str f) =>
      match lookupField "message" fields with
      | some (.str m) => .ok ⟨f, m⟩
      | some _ => .error "invalid type for field message"
      | none => .error "missing field message"
    | some _ => .error "invalid type for field from"
    | none => .error "missing field from"
  | _ => .error "invalid type: expected an object"

/-- Numeric value of a hexadecimal digit. -/
def hexDigitVal (c : Char) : Option Nat :=
  if 48 ≤ c.toNat ∧ c.toNat ≤ 57 then some (c.toNat - 48)
  else if 97 ≤ c.toNat ∧ c.toNat ≤ 102 then some (c.toNat - 87)
  else if 65 ≤ c.toNat ∧ c.toNat ≤ 70 then some (c.toNat - 55)
  else none

/-- Single-character string escapes of JSON. -/
def simpleEsc (c : Char) : Option Char :=
  if c = '"' then some '"'
  else if c = '\\' then some '\\'
  else if c = '/' then some '/'
  else if c = 'n' then some '\n'
  else if c = 't' then some '\t'
  else if c = 'r' then some '\r'
  else if c = 'b' then some (Char.ofNat 8)
  else if c = 'f' then some (Char.ofNat 12)
  else none

/-- Body of a JSON string after the opening quote; returns the decoded
characters and the remaining input past the closing quote. -/
def parseStrChars : List Char → Option (List Char × List Char)
  | [] => none
  | '"' :: rest => some ([], rest)
  | '\\' :: 'u' :: h1 :: h2 :: h3 :: h4 :: rest =>
    match hexDigitVal h1, hexDigitVal h2, hexDigitVal h3, hexDigitVal h4 with
    | some v1, some v2, some v3, some v4 =>
      (parseStrChars rest).map fun p =>
        (Char.ofNat (v1 * 4096 + v2 * 256 + v3 * 16 + v4) :: p.1, p.2)
    | _, _, _, _ => none
  | '\\' :: e :: rest =>
    match simpleEsc e with
    | some c => (parseStrChars rest).map fun p => (c :: p.1, p.2)
    | none => none
  | c :: rest => (parseStrChars rest).map fun p => (c :: p.1, p.2)

/-- Leading decimal digits of the input. -/
def takeDigits : List Char → (List Char × List Char)
  | [] => ([], [])
  | c :: rest =>
    if 48 ≤ c.toNat ∧ c.toNat ≤ 57 then
      let p := takeDigits rest
      (c :: p.1, p.2)
    else ([], c :: rest)

/-- Natural number denoted by a digit string. -/
def digitsToNat (ds : List Char) : Nat :=
  ds.foldl (fun acc c => acc * 10 + (c.toNat - 48)) 0

/-- JSON number (model restriction: integers only; no envelope field is
numeric, so fractional/exponent forms are rejected rather than modelled). -/
def parseNum (cs : List Char) : Option (Json × List Char) :=
  let p := match cs with
    | '-' :: rest => (true, rest)
    | _ => (false, cs)
  match takeDigits p.2 with
  | ([], _) => none
  | (ds, rest) =>
    let n : Int := if p.1 then -(digitsToNat ds : Int) else (digitsToNat ds : Int)
    match rest with
    | c :: _ => if c = '.' ∨ c = 'e' ∨ c = 'E' then none else some (.num n, rest)
    | [] => some (.num n, [])

/-- Skip JSON whitespace. -/
def skipWs : List Char → List Char
  | [] => []
  | c :: rest =>
    if c = ' ' ∨ c = '\n' ∨ c = '\t' ∨ c = '\r' then skipWs rest else c :: rest

mutual

/-- One JSON value from the front of the input (fuel-indexed for totality). -/
def parseVal (fuel : Nat) (cs : List Char) : Option (Json × List Char) :=
  match fuel with
  | 0 => none
  | Nat.succ f =>
    match skipWs cs with
    | 'n' :: 'u' :: 'l' :: 'l' :: rest => some (.null, rest)
    | 't' :: 'r' :: 'u' :: 'e' :: rest => some (.bool true, rest)
    | 'f' :: 'a' :: 'l' :: 's' :: 'e' :: rest => some (.bool false, rest)
    | '"' :: rest => (parseStrChars rest).map fun p => (.str (String.mk p.1), p.2)
    | '[' :: rest =>
      (match skipWs rest with
       | ']' :: rest2 => some (.arr [], rest2)
       | rest2 => (parseElems f rest2).map fun p => (.arr p.1, p.2))
    | '\x7b' :: rest =>
      (match skipWs rest with
       | '\x7d' :: rest2 => some (.obj [], rest2)
       | rest2 => (parseFields f rest2).map fun p => (.obj p.1, p.2))
    | rest => parseNum rest

/-- Comma-separated JSON values up to a closing bracket. -/
def parseElems (fuel : Nat) (cs : List Char) : Option (List Json × List Char) :=
  match fuel with
  | 0 => none
  | Nat.succ f =>
    match parseVal f cs with
    | none => none
    | some (v, rest) =>
      match skipWs rest with
      | ',' :: rest2 => (parseElems f rest2).map fun p => (v :: p.1, p.2)
      | ']' :: rest2 => some ([v], rest2)
      | _ => none

/-- Comma-separated `"key": value` pairs up to a closing brace. -/
def parseFields (fuel : Nat) (cs : List Char) :
    Option (List (String × Json) × List Char) :=
  match fuel with
  | 0 => none
  | Nat.succ f =>
    match skipWs cs with
    | '"' :: rest =>
      (match parseStrChars rest with
       | none => none
       | some (kcs, rest2) =>
         match skipWs rest2 with
         | ':' :: rest3 =>
           (match parseVal f rest3 with
            | none => none
            | some (v, rest4) =>
              match skipWs rest4 with
              | ',' :: rest5 =>
                (parseFields f rest5).map fun p => ((String.mk kcs, v) :: p.1, p.2)
              | '\x7d' :: rest5 => some ([(String.mk kcs, v)], rest5)
              | _ => none)
         | _ => none)
    | _ => none

end

/-- Text-to-value phase of serde_json: parse a whole string as one JSON value
with nothing but whitespace after it. -/
def Json.parse (s : String) : Option Json :=
  match parseVal (2 * s.length + 2) s.data with
  | some (j, rest) => if skipWs rest = [] then some j else none
  | none => none

/-- Full inner decode `serde_json::from_str::<MessageData>`: parse the text,
then bind it to `MessageData`; `none` models a deserialization error. -/
def innerDecode (s : String) : Option MessageData :=
  match Json.parse s with
  | none => none
  | some j => (decodeMessageData j).toOption

/-- Avatar URL template from the `Users` arm of `Chat::update`:
`format!("https://avatars.dicebear.com/api/adventurer-neutral/\x7b\x7d.svg", u)`. -/
def avatarUrl (name : String) : String :=
  "https://avatars.dicebear.com/api/adventurer-neutral/" ++ name ++ ".svg"

/-- Roster entry built for a name in a `Users` envelope. -/
def mkProfile (name : String) : UserProfile :=
  ⟨name, avatarUrl name⟩

/-- Component state of `Chat`: roster (`users`), timeline (`messages`) and the
text-input element's current value (`none` when the element is absent). -/
structure ChatState where
  users : List UserProfile
  messages : List MessageData
  input : Option String
deriving DecidableEq

/-- Processing of one decoded envelope, the `Msg::HandleMsg` match of
`Chat::update`. The `Bool` is the returned re-render flag; `none` models a
panic (`unwrap` of a missing `data` or of a failed inner payload decode).
The wildcard arm of the source match covers exactly `Register`. -/
def handleEnvelope (s : ChatState) (msg : WebSocketMessage) :
    Option (ChatState × Bool) :=
  match msg.message_type with
  | .Users =>
    let usersFromMessage := msg.data_array.getD []
    some ({ s with users := usersFromMessage.map mkProfile }, true)
  | .Message =>
    match msg.data with
    | none => none
    | some d =>
      match innerDecode d with
      | none => none
      | some md => some ({ s with messages := s.messages ++ [md] }, true)
  | .Register => some (s, false)

/-- Processing of one raw inbound frame already in JSON-value form:
`serde_json::from_str::<WebSocketMessage>(&s).unwrap()` then the match;
a decode error is a panic (`none`). -/
def handleFrame (s : ChatState) (frame : Json) : Option (ChatState × Bool) :=
  match decodeEnvelope frame with
  | .error _ => none
  | .ok msg => handleEnvelope s msg

/-- Processing of one raw inbound text frame end to end. -/
def handleFrameText (s : ChatState) (text : String) : Option (ChatState × Bool) :=
  match Json.parse text with
  | none => none
  | some j => handleFrame s j

/-- Sequential processing of a list of decoded envelopes, in arrival order. -/
def processEnvelopes (s : ChatState) : List WebSocketMessage → Option ChatState
  | [] => some s
  | e :: es =>
    match handleEnvelope s e with
    | none => none
    | some (s2, _) => processEnvelopes s2 es

/-- `Chat::create`: fresh empty state, no input element yet, and the outbound
traffic it produces — exactly one `Register` envelope carrying the session's
username handed to `try_send` (the send result is only logged). -/
def createChat (username : String) : ChatState × List WebSocketMessage :=
  (⟨[], [], none⟩, [⟨MsgTypes.Register, none, some username⟩])

/-- `Msg::SubmitMessage` arm of `Chat::update`: when the input element exists,
a `Message` envelope carrying the raw input text is handed to `try_send` and
the input is cleared afterwards; `sendOk` is the result of `try_send`, which
the source only logs — it influences nothing. -/
def submitMessage (sendOk : Bool) (s : ChatState) :
    ChatState × List WebSocketMessage :=
  match s.input with
  | none => (s, [])
  | some v => ({ s with input := some "" }, [⟨MsgTypes.Message, none, some v⟩])

/-- Rendered form of a message body in `Chat::view`: an image when the text
ends with `.gif`, a paragraph of plain text otherwise. -/
inductive RenderedBody where
  | media (src : String) : RenderedBody
  | text (body : String) : RenderedBody
deriving DecidableEq

/-- Whether a rendered body is the media (image) form. -/
def RenderedBody.isMedia : RenderedBody → Bool
  | .media _ => true
  | .text _ => false

/-- One rendered timeline element of `Chat::view`. -/
structure RenderedEntry where
  avatar : String
  sender : String
  body : RenderedBody
deriving DecidableEq

/-- Body branch of the message rendering: `if m.message.ends_with(".gif")`. -/
def renderBody (message : String) : RenderedBody :=
  if message.endsWith ".gif" then .media message else .text message

/-- Rendering of one timeline entry in `Chat::view`: the roster is searched
for the first profile whose name equals `m.from`; with no match the entry
renders to nothing (`html! \x7b\x7d`). -/
def renderMessage (users : List UserProfile) (m : MessageData) :
    Option RenderedEntry :=
  (users.find? fun u => u.name == m.«from»).map fun u =>
    ⟨u.avatar, m.«from», renderBody m.message⟩

/-- Message area of `Chat::view`: each timeline entry in order, those without
a roster match contributing nothing. -/
def renderedView (users : List UserProfile) (messages : List MessageData) :
    List RenderedEntry :=
  messages.filterMap (renderMessage users)

/-- C1: processing a `Users` envelope carrying any name sequence `L` replaces
the roster wholesale — the new roster is exactly `L` mapped to profiles, so it
has the same length as `L`, in the same order, with each entry's name the
corresponding name of `L` and its avatar the fixed URL template applied to
that name; duplicates in `L` stay duplicated and nothing of the previous
roster survives. -/
theorem users_envelope_replaces_roster (s : ChatState) (L : List String)
    (d : Option String) :
    handleEnvelope s ⟨MsgTypes.Users, some L, d⟩
      = some ({ s with users := L.map mkProfile }, true)
    ∧ (L.map mkProfile).length = L.length
    ∧ ∀ i : Nat, (L.map mkProfile)[i]?
        = (L[i]?).map fun n => ⟨n, avatarUrl n⟩ := by
  refine ⟨rfl, by simp, ?_⟩
  intro i
  simp only [List.getElem?_map]
  cases L[i]? <;> rfl

/-- C2: processing any sequence of well-formed `Message` envelopes in order
appends exactly their decoded ChatMessages, in order, to the timeline; and no
envelope processing step ever removes or reorders timeline entries — the old
timeline is always a prefix of the new one. -/
theorem message_envelopes_append_in_order (s : ChatState) (ds : List String)
    (cms : List MessageData)
    (h : List.Forall₂ (fun d cm => innerDecode d = some cm) ds cms) :
    processEnvelopes s (ds.map fun d => ⟨MsgTypes.Message, none, some d⟩)
      = some { s with messages := s.messages ++ cms }
    ∧ ∀ (t t2 : ChatState) (e : WebSocketMessage) (b : Bool),
        handleEnvelope t e = some (t2, b) →
        ∃ tail, t2.messages = t.messages ++ tail := by
  constructor
  · induction h generalizing s with
    | nil => simp [processEnvelopes]
    | cons h1 h2 ih =>
      simp only [List.map_cons, processEnvelopes, handleEnvelope, h1]
      rw [ih]
      simp
  · intro t t2 e b hh
    obtain ⟨mt, da, d⟩ := e
    cases mt with
    | Users =>
      simp only [handleEnvelope, Option.some.injEq, Prod.mk.injEq] at hh
      exact ⟨[], by simp [← hh.1]⟩
    | Message =>
      cases d with
      | none => simp [handleEnvelope] at hh
      | some dd =>
        cases hdd : innerDecode dd with
        | none => simp [handleEnvelope, hdd] at hh
        | some md =>
          simp only [handleEnvelope, hdd, Option.some.injEq, Prod.mk.injEq] at hh
          exact ⟨[md], by simp [← hh.1]⟩
    | Register =>
      simp only [handleEnvelope, Option.some.injEq, Prod.mk.injEq] at hh
      exact ⟨[], by simp [← hh.1]⟩

/-- C2 witness: a concrete well-formed `Message` frame appends its decoded
ChatMessage to the empty timeline. -/
theorem message_envelopes_append_in_order_witness :
    processEnvelopes ⟨[], [], none⟩
        [⟨MsgTypes.Message, none, some "\x7b\"from\":\"bob\",\"message\":\"hi\"\x7d"⟩]
      = some ⟨[], [⟨"bob", "hi"⟩], none⟩ := by
  have h := message_envelopes_append_in_order ⟨[], [], none⟩
      ["\x7b\"from\":\"bob\",\"message\":\"hi\"\x7d"] [⟨"bob", "hi"⟩]
      (List.Forall₂.cons (by decide) List.Forall₂.nil)
  simpa using h.1

/-- C3: the view renders an element for a timeline entry `m` exactly when some
roster profile's name equals `m.from`; an entry without a match contributes
nothing to the rendered output while remaining in the timeline. -/
theorem rendered_iff_sender_in_roster (R : List UserProfile)
    (ms : List MessageData) (m : MessageData) :
    ((renderMessage R m).isSome ↔ ∃ u ∈ R, u.name = m.«from»)
    ∧ renderedView R (ms ++ [m])
      = renderedView R ms ++ (renderMessage R m).toList := by
  constructor
  · simp [renderMessage, List.find?_isSome]
  · simp only [renderedView, List.filterMap_append]
    cases hr : renderMessage R m <;> simp [List.filterMap_cons, hr]

/-- C4: decoding the serialization of any constructible envelope value gives
back that value. -/
theorem envelope_decode_encode_roundtrip (e : WebSocketMessage) :
    decodeEnvelope (encodeEnvelope e) = Except.ok e := by
  obtain ⟨mt, da, d⟩ := e
  have harr : ∀ L : List String, strListOfJson (L.map Json.str) = Except.ok L := by
    intro L
    induction L with
    | nil => rfl
    | cons a t ih => simp [strListOfJson, ih, Except.map]
  cases mt <;> cases da <;> cases d <;>
    simp [encodeEnvelope, decodeEnvelope, lookupField, decodeMsgType,
      decodeOptStrList, decodeOptStr, encodeMsgType, harr, Except.map]

/-- C5 counterexample: an inbound frame whose kind tag is the unknown
`"typing"` does not decode to a recognized-but-unhandled variant — decoding
fails and processing the frame panics, refuting the claim that such frames are
decoded and silently ignored. -/
theorem unknown_kind_frame_fails_cex :
    handleFrameText ⟨[], [], none⟩ "\x7b\"messageType\":\"typing\"\x7d" = none
    ∧ (decodeEnvelope (Json.obj [("messageType", Json.str "typing")])).isOk
        = false :=
  ⟨by decide, by decide⟩

/-- C5 amended: only the three declared kinds are decodable; a frame with an
unrecognized kind tag fails to decode (so processing it fails rather than
being ignored), while the decodable-but-unhandled kind `Register` causes no
state change and no error when processed. -/
theorem register_noop_unknown_kind_fails (s : ChatState)
    (da : Option (List String)) (d : Option String) (t : String)
    (h : decodeMsgType t = none) :
    handleEnvelope s ⟨MsgTypes.Register, da, d⟩ = some (s, false)
    ∧ (decodeEnvelope (Json.obj [("messageType", Json.str t)])).isOk = false := by
  refine ⟨rfl, ?_⟩
  simp [decodeEnvelope, lookupField, h, Except.isOk, Except.toBool]

/-- C5 amended witness: instantiated at the unknown tag `"typing"` and a
concrete state. -/
theorem register_noop_unknown_kind_fails_witness :
    decodeMsgType "typing" = none
    ∧ (handleEnvelope ⟨[], [], none⟩ ⟨MsgTypes.Register, none, none⟩
         = some (⟨[], [], none⟩, false)
       ∧ (decodeEnvelope (Json.obj [("messageType", Json.str "typing")])).isOk
           = false) :=
  ⟨by decide,
   register_noop_unknown_kind_fails ⟨[], [], none⟩ none none "typing" (by decide)⟩

/-- C6 counterexample: a `Message` envelope with no `data` field is not
processed as an empty payload — processing it panics (`data.unwrap()`),
refuting the claim that absence is tolerated in this case. -/
theorem message_without_data_fails_cex :
    handleEnvelope ⟨[], [], none⟩ ⟨MsgTypes.Message, none, none⟩ = none := rfl

/-- C6 amended: a `Users` envelope with no `dataArray` is processed as
carrying the empty name sequence, but a `Message` envelope with no `data`
fails processing (panic on `unwrap`) instead of being treated as empty. -/
theorem absent_optional_fields (s : ChatState) (d : Option String)
    (da : Option (List String)) :
    handleEnvelope s ⟨MsgTypes.Users, none, d⟩
      = some ({ s with users := [] }, true)
    ∧ handleEnvelope s ⟨MsgTypes.Message, da, none⟩ = none :=
  ⟨rfl, rfl⟩

/-- C7 counterexample: submitting the input text `"hi"` sends a `Message`
envelope whose `data` is the raw text `"hi"`, which does not decode to a
ChatMessage — refuting the claim that every outbound `Message` envelope's
`data` is a serialized ChatMessage. -/
theorem submit_data_not_chatmessage_cex :
    (submitMessage true ⟨[], [], some "hi"⟩).2
      = [⟨MsgTypes.Message, none, some "hi"⟩]
    ∧ innerDecode "hi" = none :=
  ⟨rfl, rfl⟩

/-- C7 amended: the submit action sends a `Message` envelope whose `data`
field is exactly the raw input text (the client does not wrap it into a
serialized ChatMessage; that shape is only required of inbound frames). -/
theorem submit_sends_raw_input (sendOk : Bool) (us : List UserProfile)
    (ms : List MessageData) (v : String) :
    (submitMessage sendOk ⟨us, ms, some v⟩).2
      = [⟨MsgTypes.Message, none, some v⟩] := rfl

/-- C8: construction sends exactly one `Register` envelope carrying the
session's username as its `data`, and nothing else, before any inbound frame
is processed; in particular for username `"alice"` the outbound traffic is
exactly the `Register` envelope with data `"alice"`. -/
theorem create_sends_single_register (u : String) :
    createChat u = (⟨[], [], none⟩, [⟨MsgTypes.Register, none, some u⟩])
    ∧ (createChat "alice").2 = [⟨MsgTypes.Register, none, some "alice"⟩] :=
  ⟨rfl, rfl⟩

/-- C9: the rendering classifies a message as media exactly when its text ends
with `.gif`, and the full per-entry rendering applies this classification as a
function of the message string alone. -/
theorem media_classification_gif_suffix (m : MessageData)
    (R : List UserProfile) :
    (renderBody m.message).isMedia = m.message.endsWith ".gif"
    ∧ renderMessage R m
      = (R.find? fun u => u.name == m.«from»).map fun u =>
          ⟨u.avatar, m.«from», renderBody m.message⟩ := by
  refine ⟨?_, rfl⟩
  cases h : m.message.endsWith ".gif" <;>
    simp [renderBody, h, RenderedBody.isMedia]

/-- C10: after a submit action on an existing input element the input field is
empty, whatever the result of the underlying non-blocking send was. -/
theorem submit_clears_input (sendOk : Bool) (s : ChatState) (v : String)
    (h : s.input = some v) :
    (submitMessage sendOk s).1.input = some "" := by
  simp [submitMessage, h]

/-- C10 witness: a failed send (`sendOk = false`) still leaves the input
empty. -/
theorem submit_clears_input_witness :
    (⟨[], [], some "hello"⟩ : ChatState).input = some "hello"
    ∧ (submitMessage false ⟨[], [], some "hello"⟩).1.input = some "" :=
  ⟨rfl, submit_clears_input false ⟨[], [], some "hello"⟩ "hello" rfl⟩

end YewChat
